import Mathlib

/-!
Shallow embedding of the e-commerce catalog service in `src/DB3.js`
(mongoose schema `productSchema` / `variantSchema`, the static query
methods `findByCategory` and `findLowStock`, the aggregation pipelines
and the `updateOne` stock update in `runQueries`, and the
`insertMany`-based sample-data loader).

Modelling choices:
* A catalog (the `products` collection) is a `List Product`.
* JS numbers that are integral in every relevant code path (`stock`,
  low-stock thresholds, the aggregation bound) are modelled as `Int`;
  monetary amounts and ratings are modelled as `ℚ`.
* MongoDB query conditions are translated one-for-one: a condition on a
  path through an array (`variants.stock`, `variants.color`) is an
  existential over the array elements, and two such top-level conditions
  are satisfied independently (no `$elemMatch` in the source).
* mongoose `required` together with `trim: true` on a `String` field is
  modelled as "the string contains a non-whitespace character";
  `required` without `trim` as "the string is non-empty".
* `timestamps: true` is modelled where a claim depends on it: the
  update path takes the current time `now : Nat` and stamps `updatedAt`
  on the matched document (mongoose adds `updatedAt` to every
  `updateOne` `$set` when timestamps are enabled).
* `unique: true` on `variants.sku` is a unique multikey index on the
  collection, not a document validator: it rejects a document whose
  variant SKU already occurs in a *different* stored document, and an
  ordered `insertMany` stops at the first offending document, keeping
  the documents inserted before it.  mongoose update validators are off
  by default, so the `updateOne` path runs no validation at all.
-/

namespace DB3

/-- Rational constants used by the sample data, written as reduced
`num/den` structure literals so that kernel evaluation (`decide`) never
has to normalize a fraction. -/
def q1299d100 : ℚ := ⟨1299, 100, by norm_num, by norm_num⟩

/-- The rational 299.99 = 29999/100. -/
def q29999d100 : ℚ := ⟨29999, 100, by norm_num, by norm_num⟩

/-- The rational 4.8 = 24/5. -/
def q24d5 : ℚ := ⟨24, 5, by norm_num, by norm_num⟩

/-- The rational 4.5 = 9/2. -/
def q9d2 : ℚ := ⟨9, 2, by norm_num, by norm_num⟩

/-- The rational 4.7 = 47/10. -/
def q47d10 : ℚ := ⟨47, 10, by norm_num, by norm_num⟩

/-- The rational 4.3 = 43/10. -/
def q43d10 : ℚ := ⟨43, 10, by norm_num, by norm_num⟩

/-- The `rating` sub-document of `productSchema` (src/DB3.js:89-100):
`average` defaults to 0 with declared bounds [0,5]; `count` defaults to
0 and carries no declared bound. -/
structure Rating where
  average : ℚ
  count : ℚ
deriving DecidableEq

/-- One embedded variant sub-document (`variantSchema`,
src/DB3.js:16-48). -/
structure Variant where
  color : String
  size : String
  stock : Int
  sku : String
  priceModifier : ℚ
  images : List String
deriving DecidableEq

/-- One product document (`productSchema`, src/DB3.js:50-103), with the
`timestamps: true` fields `createdAt` / `updatedAt` modelled as `Nat`. -/
structure Product where
  name : String
  description : String
  basePrice : ℚ
  category : String
  brand : String
  tags : List String
  variants : List Variant
  isActive : Bool
  rating : Rating
  createdAt : Nat
  updatedAt : Nat
deriving DecidableEq

/-- The fixed category enumeration (src/DB3.js:70-73). -/
def validCategories : List String :=
  ["Electronics", "Clothing", "Books", "Home & Kitchen", "Sports", "Beauty", "Toys"]

/-- mongoose `required: true` on a `String` field with `trim: true`:
the trimmed value must be non-empty, i.e. the string contains some
non-whitespace character. -/
def requiredTrimmed (s : String) : Bool :=
  s.data.any fun c => !c.isWhitespace

/-- Document validation of one variant against `variantSchema`
(src/DB3.js:16-48): `color`, `size`, `sku` required (trimmed),
`stock` required with `min: 0`, `priceModifier` in [-1000, 1000].
`unique: true` on `sku` is an index, not part of validation. -/
def validVariant (v : Variant) : Bool :=
  requiredTrimmed v.color && requiredTrimmed v.size &&
  decide (0 ≤ v.stock) && requiredTrimmed v.sku &&
  decide (-1000 ≤ v.priceModifier) && decide (v.priceModifier ≤ 1000)

/-- Document validation of one product against `productSchema`
(src/DB3.js:50-103): `name` required/trimmed with `maxlength` 100,
`description` required (no trim) with `maxlength` 1000, `basePrice`
required with `min: 0`, `category` in the enumeration, `brand`
required/trimmed, `rating.average` in [0, 5], and every embedded
variant valid.  `rating.count` has no declared constraint. -/
def validProduct (p : Product) : Bool :=
  requiredTrimmed p.name && decide (p.name.length ≤ 100) &&
  !(p.description == "") && decide (p.description.length ≤ 1000) &&
  decide (0 ≤ p.basePrice) &&
  validCategories.contains p.category &&
  requiredTrimmed p.brand &&
  decide (0 ≤ p.rating.average) && decide (p.rating.average ≤ 5) &&
  p.variants.all validVariant

/-- Static `findByCategory` (src/DB3.js:121-123):
`this.find({ category, isActive: true })`. -/
def findByCategory (cat : List Product) (c : String) : List Product :=
  cat.filter fun p => p.category == c && p.isActive

/-- Static `findLowStock` (src/DB3.js:126-131):
`this.find({ 'variants.stock': { $lte: threshold }, isActive: true })`.
The condition on the array path `variants.stock` holds iff some variant
satisfies it. -/
def findLowStock (cat : List Product) (threshold : Int) : List Product :=
  cat.filter fun p =>
    (p.variants.any fun v => decide (v.stock ≤ threshold)) && p.isActive

/-- `findLowStock` with the declared default argument `threshold = 5`
(src/DB3.js:126). -/
def findLowStockDefault (cat : List Product) : List Product :=
  findLowStock cat 5

/-- The `totalStock` virtual (src/DB3.js:111-113):
`this.variants.reduce((total, variant) => total + variant.stock, 0)`;
the `$addFields` stage of pipeline 7 computes the same
`{ $sum: '$variants.stock' }`. -/
def totalStock (p : Product) : Int :=
  p.variants.foldl (fun total v => total + v.stock) 0

/-- Shape of one result row of aggregation pipeline 7
(src/DB3.js:377-402) after its `$project` stage. -/
structure HighStockRow where
  name : String
  category : String
  totalStock : Int
  variants : List Variant
deriving DecidableEq

/-- Aggregation pipeline 7 (src/DB3.js:377-402): `$addFields` annotates
each document with `totalStock`, `$match` keeps `totalStock > minTotal`
(the source calls it with 50), and `$project` keeps `name`, `category`,
`totalStock` and the variants with `stock > 0`. -/
def aggregateHighTotalStock (cat : List Product) (minTotal : Int) : List HighStockRow :=
  ((cat.map fun p => (p, totalStock p)).filter fun pt => decide (minTotal < pt.2)).map
    fun pt =>
      { name := pt.1.name
        category := pt.1.category
        totalStock := pt.2
        variants := pt.1.variants.filter fun v => decide (0 < v.stock) }

/-- Shape of one `$group` result of aggregation pipeline 6
(src/DB3.js:363-370): `_id` is the category, with `avgPrice` and
`productCount`. -/
structure CategoryStats where
  category : String
  avgPrice : ℚ
  productCount : Nat
deriving DecidableEq

/-- The `$group` accumulators of pipeline 6 for one category `c`:
`avgPrice: { $avg: '$basePrice' }` and `productCount: { $sum: 1 }` over
the products of that category. -/
def categoryStatsFor (cat : List Product) (c : String) : CategoryStats :=
  let ps := cat.filter fun p => p.category == c
  { category := c
    avgPrice := (ps.map Product.basePrice).sum / (ps.length : ℚ)
    productCount := ps.length }

/-- The `$group` stage of pipeline 6: one result row per distinct
category occurring in the collection. -/
def groupByCategory (cat : List Product) : List CategoryStats :=
  ((cat.map Product.category).dedup).map (categoryStatsFor cat)

/-- Insertion into a list kept in descending `avgPrice` order,
realizing the `$sort: { avgPrice: -1 }` stage of pipeline 6. -/
def insertDesc (r : CategoryStats) : List CategoryStats → List CategoryStats
  | [] => [r]
  | x :: xs => if x.avgPrice ≤ r.avgPrice then r :: x :: xs else x :: insertDesc r xs

/-- Insertion sort by descending `avgPrice` (the `$sort` stage of
pipeline 6). -/
def sortByAvgPriceDesc : List CategoryStats → List CategoryStats
  | [] => []
  | x :: xs => insertDesc x (sortByAvgPriceDesc xs)

/-- Aggregation pipeline 6 (src/DB3.js:363-370): group all products by
category (no `isActive` condition appears in the pipeline), average
`basePrice` and count per group, sort by descending average price. -/
def aggregateAveragePriceByCategory (cat : List Product) : List CategoryStats :=
  sortByAvgPriceDesc (groupByCategory cat)

/-- Characters of a string, lower-cased, for the case-insensitive regex
`/black/i` of query 5 (src/DB3.js:349-352). -/
def lowerChars (s : String) : List Char :=
  s.data.map Char.toLower

/-- Whether a variant's `color` matches the case-insensitive substring
pattern, as the regex `/pat/i` does. -/
def colorMatches (pat : String) (v : Variant) : Bool :=
  decide (lowerChars pat <:+: lowerChars v.color)

/-- Query 5 (src/DB3.js:349-352):
`Product.find({ 'variants.color': /pat/i, 'variants.stock': { $gt: 0 } })`.
The two array-path conditions are independent existentials over the
variants (the source uses no `$elemMatch`), and the query has no
`isActive` condition. -/
def findByVariantColorPattern (cat : List Product) (pat : String) : List Product :=
  cat.filter fun p =>
    (p.variants.any (colorMatches pat)) && (p.variants.any fun v => decide (0 < v.stock))

/-- Whether some variant of `p` carries the SKU, i.e. whether the
`updateOne` filter `{ 'variants.sku': sku }` matches `p`. -/
def hasSku (p : Product) (sku : String) : Bool :=
  p.variants.any fun v => v.sku == sku

/-- The positional `$set: { 'variants.$.stock': newStock }` of query 8
(src/DB3.js:409-412): set the stock of the first variant matching the
query condition, leaving every other field and element untouched. -/
def setFirstVariantStock (sku : String) (newStock : Int) : List Variant → List Variant
  | [] => []
  | v :: vs =>
    if v.sku = sku then { v with stock := newStock } :: vs
    else v :: setFirstVariantStock sku newStock vs

/-- Query 8 (src/DB3.js:409-413):
`Product.updateOne({ 'variants.sku': sku }, { $set: { 'variants.$.stock': newStock } })`.
`updateOne` updates the first matching document only; with
`timestamps: true` mongoose also stamps `updatedAt` on it.  Update
validators are off by default, so no constraint is checked, and a
filter that matches nothing simply reports `modifiedCount` 0.  Returns
the new collection and the modified-document count. -/
def updateVariantStock (cat : List Product) (sku : String) (newStock : Int) (now : Nat) :
    List Product × Nat :=
  match cat with
  | [] => ([], 0)
  | p :: rest =>
    if hasSku p sku then
      ({ p with variants := setFirstVariantStock sku newStock p.variants,
                updatedAt := now } :: rest, 1)
    else
      let r := updateVariantStock rest sku newStock now
      (p :: r.1, r.2)

/-- Stock update applied to every variant carrying the SKU (used to
state the frame property: when the SKU is unique this coincides with
the positional first-match update). -/
def updateAllVariantStock (sku : String) (newStock : Int) (vs : List Variant) : List Variant :=
  vs.map fun v => if v.sku = sku then { v with stock := newStock } else v

/-- Whole-document view of the update: a document containing the SKU
gets the variant update and the new `updatedAt`; any other document is
untouched. -/
def updatedProduct (sku : String) (newStock : Int) (now : Nat) (p : Product) : Product :=
  if hasSku p sku then
    { p with variants := updateAllVariantStock sku newStock p.variants, updatedAt := now }
  else p

/-- Number of variants of `vs` carrying the SKU. -/
def skuCountVariants (sku : String) (vs : List Variant) : Nat :=
  (vs.filter fun v => v.sku == sku).length

/-- Number of variants across the whole catalog carrying the SKU. -/
def skuCount (cat : List Product) (sku : String) : Nat :=
  (cat.map fun p => skuCountVariants sku p.variants).sum

/-- Whether the SKU occurs in some stored document: the unique multikey
index on `variants.sku` rejects an incoming document exactly when one
of its variant SKUs satisfies this against the already-stored
documents (uniqueness is across documents; MongoDB does not enforce a
unique multikey index within a single document's array). -/
def skuInCatalog (cat : List Product) (s : String) : Bool :=
  cat.any fun p => p.variants.any fun v => v.sku == s

/-- Outcome kinds of the insert path: mongoose document validation
failure, or a duplicate-key error from the unique index on
`variants.sku`. -/
inductive InsertError where
  | validationError : InsertError
  | duplicateKey : String → InsertError
deriving DecidableEq

/-- Ordered server-side insert: documents are inserted one by one; the
first duplicate-key violation stops the batch, keeping the documents
already inserted (partial insert). -/
def insertLoop (cat : List Product) : List Product → List Product × Option InsertError
  | [] => (cat, none)
  | d :: ds =>
    match d.variants.find? (fun v => skuInCatalog cat v.sku) with
    | some v => (cat, some (InsertError.duplicateKey v.sku))
    | none => insertLoop (cat ++ [d]) ds

/-- `Product.insertMany` (src/DB3.js:298) with the default
`ordered: true`: mongoose first validates every document and rejects
the whole batch (inserting nothing) on a validation failure; then the
server inserts in order, stopping at the first duplicate-key error. -/
def insertMany (cat : List Product) (docs : List Product) : List Product × Option InsertError :=
  if docs.all validProduct then insertLoop cat docs
  else (cat, some InsertError.validationError)

/-- Sample product 1 of `insertSampleData` (src/DB3.js:144-181), as
stored: `isActive` defaults to true; timestamps taken as 0. -/
def iphoneProduct : Product :=
  { name := "iPhone 15 Pro"
    description := "Latest iPhone with advanced camera system and A17 Pro chip"
    basePrice := 999
    category := "Electronics"
    brand := "Apple"
    tags := ["smartphone", "premium", "5g"]
    variants :=
      [ { color := "Titanium Black", size := "128GB", stock := 25,
          sku := "IP15P-BLK-128", priceModifier := 0,
          images := ["iphone_black_1.jpg", "iphone_black_2.jpg"] },
        { color := "Titanium White", size := "256GB", stock := 15,
          sku := "IP15P-WHT-256", priceModifier := 100,
          images := ["iphone_white_1.jpg", "iphone_white_2.jpg"] },
        { color := "Titanium Blue", size := "512GB", stock := 8,
          sku := "IP15P-BLU-512", priceModifier := 200,
          images := ["iphone_blue_1.jpg", "iphone_blue_2.jpg"] } ]
    isActive := true
    rating := { average := q24d5, count := 342 }
    createdAt := 0
    updatedAt := 0 }

/-- Sample product 2 of `insertSampleData` (src/DB3.js:182-227). -/
def nikeProduct : Product :=
  { name := "Nike Air Max 270"
    description := "Comfortable running shoes with Air Max cushioning"
    basePrice := 150
    category := "Sports"
    brand := "Nike"
    tags := ["shoes", "running", "athletic"]
    variants :=
      [ { color := "Black/White", size := "US 9", stock := 45,
          sku := "NIKE-AM270-BW-9", priceModifier := 0,
          images := ["nike_black_1.jpg"] },
        { color := "Red/Black", size := "US 10", stock := 32,
          sku := "NIKE-AM270-RB-10", priceModifier := 0,
          images := ["nike_red_1.jpg"] },
        { color := "Blue/White", size := "US 11", stock := 18,
          sku := "NIKE-AM270-BW-11", priceModifier := 0,
          images := ["nike_blue_1.jpg"] },
        { color := "Black/White", size := "US 12", stock := 0,
          sku := "NIKE-AM270-BW-12", priceModifier := 0,
          images := ["nike_black_1.jpg"] } ]
    isActive := true
    rating := { average := q9d2, count := 189 }
    createdAt := 0
    updatedAt := 0 }

/-- Sample product 3 of `insertSampleData` (src/DB3.js:228-265). -/
def gatsbyProduct : Product :=
  { name := "The Great Gatsby"
    description := "Classic novel by F. Scott Fitzgerald"
    basePrice := q1299d100
    category := "Books"
    brand := "Penguin Classics"
    tags := ["fiction", "classic", "literature"]
    variants :=
      [ { color := "Paperback", size := "Standard", stock := 120,
          sku := "BOOK-GG-PB-STD", priceModifier := 0,
          images := ["gatsby_paperback.jpg"] },
        { color := "Hardcover", size := "Standard", stock := 45,
          sku := "BOOK-GG-HC-STD", priceModifier := 8,
          images := ["gatsby_hardcover.jpg"] },
        { color := "Collector\x27s Edition", size := "Large", stock := 15,
          sku := "BOOK-GG-CE-LRG", priceModifier := 15,
          images := ["gatsby_collector.jpg"] } ]
    isActive := true
    rating := { average := q47d10, count := 567 }
    createdAt := 0
    updatedAt := 0 }

/-- Sample product 4 of `insertSampleData` (src/DB3.js:266-295). -/
def cookwareProduct : Product :=
  { name := "Stainless Steel Cookware Set"
    description := "10-piece stainless steel cookware set for professional cooking"
    basePrice := q29999d100
    category := "Home & Kitchen"
    brand := "KitchenMaster"
    tags := ["cookware", "stainless steel", "kitchen"]
    variants :=
      [ { color := "Silver", size := "10-Piece", stock := 28,
          sku := "KITCHEN-SET-SIL-10", priceModifier := 0,
          images := ["cookware_silver_1.jpg", "cookware_silver_2.jpg"] },
        { color := "Black", size := "10-Piece", stock := 15,
          sku := "KITCHEN-SET-BLK-10", priceModifier := 20,
          images := ["cookware_black_1.jpg", "cookware_black_2.jpg"] } ]
    isActive := true
    rating := { average := q43d10, count := 234 }
    createdAt := 0
    updatedAt := 0 }

/-- The full sample catalog inserted by `insertSampleData`
(src/DB3.js:143-296). -/
def sampleProducts : List Product :=
  [iphoneProduct, nikeProduct, gatsbyProduct, cookwareProduct]

/-- An active product with one variant at stock 2 and another at stock
500 (the configuration named by the spec's low-stock example). -/
def mixedStockProduct : Product :=
  { name := "Mixed"
    description := "mixed stock"
    basePrice := 10
    category := "Toys"
    brand := "Acme"
    tags := []
    variants :=
      [ { color := "Red", size := "S", stock := 2,
          sku := "MIX-LOW", priceModifier := 0, images := [] },
        { color := "Blue", size := "L", stock := 500,
          sku := "MIX-HIGH", priceModifier := 0, images := [] } ]
    isActive := true
    rating := { average := 0, count := 0 }
    createdAt := 0
    updatedAt := 0 }

/-- A one-variant fixture (SKU `"X"`, stock 10) for the update-path
counterexamples. -/
def tinyVariant : Variant :=
  { color := "Red", size := "S", stock := 10,
    sku := "X", priceModifier := 0, images := [] }

/-- A one-product fixture owning `tinyVariant`. -/
def tinyProduct : Product :=
  { name := "Tiny"
    description := "tiny"
    basePrice := 10
    category := "Toys"
    brand := "Acme"
    tags := []
    variants := [tinyVariant]
    isActive := true
    rating := { average := 0, count := 0 }
    createdAt := 0
    updatedAt := 0 }

/-- A one-product catalog for the update-path counterexamples. -/
def tinyCatalog : List Product :=
  [tinyProduct]

/-- A schema-valid product whose single variant carries SKU
`"DUP-SKU"`. -/
def dupA : Product :=
  { name := "First"
    description := "first record of the duplicate batch"
    basePrice := 10
    category := "Books"
    brand := "Acme"
    tags := []
    variants :=
      [ { color := "Red", size := "S", stock := 1,
          sku := "DUP-SKU", priceModifier := 0, images := [] } ]
    isActive := true
    rating := { average := 0, count := 0 }
    createdAt := 0
    updatedAt := 0 }

/-- A second schema-valid product whose single variant carries the same
SKU `"DUP-SKU"`. -/
def dupB : Product :=
  { name := "Second"
    description := "second record of the duplicate batch"
    basePrice := 20
    category := "Toys"
    brand := "Acme"
    tags := []
    variants :=
      [ { color := "Blue", size := "L", stock := 2,
          sku := "DUP-SKU", priceModifier := 0, images := [] } ]
    isActive := true
    rating := { average := 0, count := 0 }
    createdAt := 0
    updatedAt := 0 }

/-- A schema-valid product with two variants carrying the same SKU
inside one document. -/
def twinSkuProduct : Product :=
  { name := "Twin"
    description := "two variants share one SKU"
    basePrice := 5
    category := "Toys"
    brand := "Acme"
    tags := []
    variants :=
      [ { color := "Red", size := "S", stock := 1,
          sku := "TWIN-SKU", priceModifier := 0, images := [] },
        { color := "Blue", size := "L", stock := 2,
          sku := "TWIN-SKU", priceModifier := 0, images := [] } ]
    isActive := true
    rating := { average := 0, count := 0 }
    createdAt := 0
    updatedAt := 0 }

/-- A product passing every declared schema constraint while its
`rating.count` is negative (the schema declares no bound on `count`,
src/DB3.js:96-99). -/
def negCountProduct : Product :=
  { name := "Odd"
    description := "valid everywhere except the undeclared count bound"
    basePrice := 10
    category := "Beauty"
    brand := "Acme"
    tags := []
    variants :=
      [ { color := "Red", size := "S", stock := 3,
          sku := "ODD-SKU", priceModifier := 0, images := [] } ]
    isActive := true
    rating := { average := 1, count := -1 }
    createdAt := 0
    updatedAt := 0 }

/-- An inactive product whose only black variant has stock 0, while a
red variant has positive stock: query 5 still returns it. -/
def inactiveMixedProduct : Product :=
  { name := "Ghost"
    description := "inactive with disjoint color and stock witnesses"
    basePrice := 10
    category := "Toys"
    brand := "Acme"
    tags := []
    variants :=
      [ { color := "Black", size := "S", stock := 0,
          sku := "GHOST-BLACK", priceModifier := 0, images := [] },
        { color := "Red", size := "L", stock := 3,
          sku := "GHOST-RED", priceModifier := 0, images := [] } ]
    isActive := false
    rating := { average := 0, count := 0 }
    createdAt := 0
    updatedAt := 0 }

/-! ## Helper lemmas -/

/-- Membership characterization of `findLowStock`: the documents whose
variant-stock condition and `isActive` condition both hold. -/
theorem mem_findLowStock {cat : List Product} {T : Int} {p : Product} :
    p ∈ findLowStock cat T ↔
      p ∈ cat ∧ p.isActive = true ∧ ∃ v ∈ p.variants, v.stock ≤ T := by
  simp only [findLowStock, List.mem_filter, Bool.and_eq_true, List.any_eq_true,
    decide_eq_true_eq]
  tauto

/-- Membership characterization of `findByCategory`. -/
theorem mem_findByCategory {cat : List Product} {c : String} {p : Product} :
    p ∈ findByCategory cat c ↔ p ∈ cat ∧ p.category = c ∧ p.isActive = true := by
  simp only [findByCategory, List.mem_filter, Bool.and_eq_true, beq_iff_eq]

/-- A SKU occurs in no variant of `vs` iff its occurrence count is 0. -/
theorem skuCountVariants_eq_zero {sku : String} {vs : List Variant} :
    skuCountVariants sku vs = 0 ↔ ∀ v ∈ vs, ¬v.sku = sku := by
  simp only [skuCountVariants, List.length_eq_zero, List.filter_eq_nil_iff,
    beq_iff_eq]

/-- `hasSku` is the positivity of the occurrence count. -/
theorem hasSku_iff_skuCountVariants_pos {p : Product} {sku : String} :
    hasSku p sku = true ↔ 0 < skuCountVariants sku p.variants := by
  rw [Nat.pos_iff_ne_zero, Ne, skuCountVariants_eq_zero]
  simp [hasSku, List.any_eq_true]

/-- Unfolding of the all-carriers update over a cons cell. -/
theorem updateAllVariantStock_cons {sku : String} {ns : Int} {v : Variant}
    {rest : List Variant} :
    updateAllVariantStock sku ns (v :: rest) =
      (if v.sku = sku then { v with stock := ns } else v) ::
        updateAllVariantStock sku ns rest := rfl

/-- Occurrence count of a SKU over a cons cell of the catalog. -/
theorem skuCount_cons {p : Product} {rest : List Product} {sku : String} :
    skuCount (p :: rest) sku = skuCountVariants sku p.variants + skuCount rest sku := by
  simp [skuCount]

/-- When no variant of `vs` carries the SKU, updating all carriers is
the identity. -/
theorem updateAllVariantStock_eq_self {sku : String} {ns : Int} {vs : List Variant}
    (h : skuCountVariants sku vs = 0) : updateAllVariantStock sku ns vs = vs := by
  rw [skuCountVariants_eq_zero] at h
  induction vs with
  | nil => rfl
  | cons v rest ih =>
    rw [updateAllVariantStock_cons, if_neg (h v (by simp)),
      ih fun w hw => h w (by simp [hw])]

/-- When at most one variant of `vs` carries the SKU, the positional
first-match update coincides with updating every carrier. -/
theorem setFirstVariantStock_eq_updateAll {sku : String} {ns : Int} {vs : List Variant}
    (h : skuCountVariants sku vs ≤ 1) :
    setFirstVariantStock sku ns vs = updateAllVariantStock sku ns vs := by
  induction vs with
  | nil => rfl
  | cons v rest ih =>
    by_cases hv : v.sku = sku
    · have hcount : skuCountVariants sku rest = 0 := by
        have : skuCountVariants sku (v :: rest) = skuCountVariants sku rest + 1 := by
          simp [skuCountVariants, List.filter_cons, hv]
        omega
      rw [setFirstVariantStock, if_pos hv, updateAllVariantStock_cons, if_pos hv,
        updateAllVariantStock_eq_self hcount]
    · have hle : skuCountVariants sku rest ≤ 1 := by
        have : skuCountVariants sku (v :: rest) = skuCountVariants sku rest := by
          simp [skuCountVariants, List.filter_cons, hv]
        omega
      rw [setFirstVariantStock, if_neg hv, updateAllVariantStock_cons, if_neg hv,
        ih hle]

/-- When the catalog contains no carrier of the SKU, the
whole-document update is the identity on every document. -/
theorem map_updatedProduct_eq_self {cat : List Product} {sku : String} {ns : Int}
    {now : Nat} (h : skuCount cat sku = 0) :
    cat.map (updatedProduct sku ns now) = cat := by
  induction cat with
  | nil => rfl
  | cons p rest ih =>
    rw [skuCount_cons] at h
    have hp : skuCountVariants sku p.variants = 0 := by omega
    have hrest : skuCount rest sku = 0 := by omega
    have hhas : hasSku p sku = false := by
      rw [← Bool.not_eq_true, hasSku_iff_skuCountVariants_pos, hp]
      omega
    rw [List.map_cons, updatedProduct, hhas, if_neg (by simp), ih hrest]

/-! ## Claim theorems -/

/-- C1: for every catalog state and every threshold `T`, `findLowStock`
returns exactly the active products having at least one variant with
`stock ≤ T` (an existential filter over embedded variants, not a
total-stock comparison: the product with variants at stock 2 and 500
qualifies at threshold 5), and the threshold defaults to 5 when
omitted. -/
theorem C1_findLowStock_correct :
    (∀ (cat : List Product) (T : Int) (p : Product),
        p ∈ findLowStock cat T ↔
          p ∈ cat ∧ p.isActive = true ∧ ∃ v ∈ p.variants, v.stock ≤ T) ∧
    (∀ cat : List Product, findLowStockDefault cat = findLowStock cat 5) ∧
    findLowStock [mixedStockProduct] 5 = [mixedStockProduct] := by
  refine ⟨fun cat T p => mem_findLowStock, fun cat => rfl, by decide⟩

/-- C2: for every catalog state and every category argument `c`,
`findByCategory` returns exactly the products with `category = c` and
`isActive = true`; on a catalog whose categories all lie in the fixed
enumeration, an argument outside the enumeration yields the empty list
(the operation is total, nothing is thrown); on the sample catalog,
`"Electronics"` yields exactly the iPhone product and `"Nonexistent"`
yields the empty list. -/
theorem C2_findByCategory_correct :
    (∀ (cat : List Product) (c : String) (p : Product),
        p ∈ findByCategory cat c ↔ p ∈ cat ∧ p.category = c ∧ p.isActive = true) ∧
    (∀ (cat : List Product) (c : String),
        c ∉ validCategories → (∀ p ∈ cat, p.category ∈ validCategories) →
        findByCategory cat c = []) ∧
    findByCategory sampleProducts "Electronics" = [iphoneProduct] ∧
    findByCategory sampleProducts "Nonexistent" = [] := by
  refine ⟨fun cat c p => mem_findByCategory, ?_, by decide, by decide⟩
  intro cat c hc hcat
  rw [findByCategory, List.filter_eq_nil_iff]
  intro p hp
  simp only [Bool.and_eq_true, beq_iff_eq, not_and]
  intro hpc
  exact absurd (hpc ▸ hcat p hp) hc

/-- Witness for C2 at a concrete input: the sample catalog's categories
all lie in the enumeration and `"Nonexistent"` does not, so the query
returns the empty list. -/
theorem C2_findByCategory_correct_witness :
    findByCategory sampleProducts "Nonexistent" = [] :=
  C2_findByCategory_correct.2.1 sampleProducts "Nonexistent" (by decide) (by decide)

/-- C10: the low-stock query is monotone in its threshold: whatever is
returned at threshold `T1 ≤ T2` is also returned at `T2`. -/
theorem C10_findLowStock_monotone :
    ∀ (cat : List Product) (T1 T2 : Int) (p : Product),
      T1 ≤ T2 → p ∈ findLowStock cat T1 → p ∈ findLowStock cat T2 := by
  intro cat T1 T2 p h hp
  rcases mem_findLowStock.1 hp with ⟨hc, ha, v, hv, hs⟩
  exact mem_findLowStock.2 ⟨hc, ha, v, hv, le_trans hs h⟩

/-- Witness for C10 at a concrete input: the Nike product is low-stock
at threshold 0 (its fourth variant has stock 0), hence also at 5. -/
theorem C10_findLowStock_monotone_witness :
    nikeProduct ∈ findLowStock sampleProducts 5 :=
  C10_findLowStock_monotone sampleProducts 0 5 nikeProduct (by decide) (by decide)

/-- C3: when the catalog carries the SKU on exactly one variant (the
situation the SKU-uniqueness index maintains), the update sets exactly
that variant's `stock`, stamps the owning document's `updatedAt` with
the current time, leaves the variant's other fields, its sibling
variants and every other document unchanged, and reports one modified
document.  The right-hand side `updatedProduct` touches a document only
if it carries the SKU, and inside it touches only the `stock` of the
carrying variant and the `updatedAt` field. -/
theorem C3_updateVariantStock_frame :
    ∀ (cat : List Product) (sku : String) (ns : Int) (now : Nat),
      skuCount cat sku = 1 →
      updateVariantStock cat sku ns now = (cat.map (updatedProduct sku ns now), 1) := by
  intro cat sku ns now h
  induction cat with
  | nil => simp [skuCount] at h
  | cons p rest ih =>
    rw [skuCount_cons] at h
    by_cases hp : hasSku p sku = true
    · have hpos := hasSku_iff_skuCountVariants_pos.1 hp
      have hc1 : skuCountVariants sku p.variants ≤ 1 := by omega
      have hr0 : skuCount rest sku = 0 := by omega
      rw [updateVariantStock, if_pos hp, List.map_cons, updatedProduct, if_pos hp,
        map_updatedProduct_eq_self hr0, setFirstVariantStock_eq_updateAll hc1]
    · have hp0 : skuCountVariants sku p.variants = 0 := by
        by_contra hne
        exact hp (hasSku_iff_skuCountVariants_pos.2 (by omega))
      have hr1 : skuCount rest sku = 1 := by omega
      simp only [updateVariantStock, if_neg hp, ih hr1, List.map_cons]
      rw [updatedProduct, if_neg hp]

/-- Witness for C3 at the spec's concrete input: updating SKU
`NIKE-AM270-BW-9` to stock 40 at time 7 on the sample catalog. -/
theorem C3_updateVariantStock_frame_witness :
    updateVariantStock sampleProducts "NIKE-AM270-BW-9" 40 7 =
      (sampleProducts.map (updatedProduct "NIKE-AM270-BW-9" 40 7), 1) :=
  C3_updateVariantStock_frame sampleProducts "NIKE-AM270-BW-9" 40 7 (by decide)

/-- C4 counterexample: on a one-product catalog whose only variant has
SKU `"X"` and stock 10, an update addressed to an absent SKU completes
normally with zero modified documents (no `NotFoundError` arises in the
code, which runs a bare `updateOne`), and an update to the negative
stock -5 goes through and changes the catalog (mongoose runs no update
validators by default), contradicting that the state is unchanged in
the claimed failure cases. -/
theorem C4_update_counterexample :
    updateVariantStock tinyCatalog "NO-SUCH-SKU" 40 7 = (tinyCatalog, 0) ∧
    (updateVariantStock tinyCatalog "X" (-5) 7).1 =
      [{ tinyProduct with variants := [{ tinyVariant with stock := -5 }], updatedAt := 7 }] ∧
    (updateVariantStock tinyCatalog "X" (-5) 7).1 ≠ tinyCatalog := by
  exact ⟨by decide, by decide, by decide⟩

/-- C4 (amended): when no variant in the catalog carries the SKU, the
update matches nothing, reports zero modified documents and leaves the
catalog unchanged, with no error signalled; when `newStock` is
negative, the update is applied anyway (update validators are off), as
the concrete -5 update on the one-product catalog shows. -/
theorem C4_update_amended :
    (∀ (cat : List Product) (sku : String) (ns : Int) (now : Nat),
        (∀ p ∈ cat, hasSku p sku = false) →
        updateVariantStock cat sku ns now = (cat, 0)) ∧
    (updateVariantStock tinyCatalog "X" (-5) 7).1 =
      [{ tinyProduct with variants := [{ tinyVariant with stock := -5 }], updatedAt := 7 }] := by
  refine ⟨?_, by decide⟩
  intro cat sku ns now h
  induction cat with
  | nil => rfl
  | cons p rest ih =>
    have hp : ¬hasSku p sku = true := by
      simp [h p (by simp)]
    simp only [updateVariantStock, if_neg hp,
      ih fun q hq => h q (by simp [hq])]

/-- Witness for C4 (amended) at a concrete input: no variant of the
one-product catalog carries `"NO-SUCH-SKU"`, so the update returns the
catalog unchanged with count 0. -/
theorem C4_update_amended_witness :
    updateVariantStock tinyCatalog "NO-SUCH-SKU" 40 7 = (tinyCatalog, 0) :=
  C4_update_amended.1 tinyCatalog "NO-SUCH-SKU" 40 7 (by decide)

/-- C5 counterexample: a batch of two schema-valid products whose
variants share the SKU `"DUP-SKU"`, inserted into the empty catalog.
The batch fails with a duplicate-key error, not a validation error,
and the first product remains stored: a partial insert occurs. -/
theorem C5_insertMany_counterexample :
    insertMany [] [dupA, dupB] = ([dupA], some (InsertError.duplicateKey "DUP-SKU")) ∧
    validProduct dupA = true ∧ validProduct dupB = true := by
  exact ⟨by decide, by decide, by decide⟩

/-- C5 (amended): a duplicate SKU between two records of the batch (or
against an already-stored document) makes the ordered insert stop at
the offending record with a duplicate-key error — not a
`ValidationError` — and the records inserted before it remain stored,
so a partial insert occurs; a duplicate SKU inside one record's own
variant array is not rejected at all (a unique multikey index never
compares entries of the same document). -/
theorem C5_insertMany_amended :
    (∀ (cat : List Product) (A B : Product),
        validProduct A = true → validProduct B = true →
        (∀ v ∈ A.variants, skuInCatalog cat v.sku = false) →
        (∃ v ∈ B.variants, skuInCatalog (cat ++ [A]) v.sku = true) →
        (insertMany cat [A, B]).1 = cat ++ [A] ∧
        ∃ s, (insertMany cat [A, B]).2 = some (InsertError.duplicateKey s)) ∧
    insertMany [] [twinSkuProduct] = ([twinSkuProduct], none) := by
  refine ⟨?_, by decide⟩
  intro cat A B hA hB hAfresh hBdup
  have hall : List.all [A, B] validProduct = true := by simp [hA, hB]
  have hAfind : A.variants.find? (fun v => skuInCatalog cat v.sku) = none := by
    rw [List.find?_eq_none]
    intro v hv
    simp [hAfresh v hv]
  cases hBfind : B.variants.find? (fun v => skuInCatalog (cat ++ [A]) v.sku) with
  | none =>
    exfalso
    rcases hBdup with ⟨v, hv, hsku⟩
    exact absurd hsku (by simpa using List.find?_eq_none.1 hBfind v hv)
  | some w =>
    rw [insertMany, if_pos hall]
    simp only [insertLoop, hAfind, hBfind]
    exact ⟨trivial, w.sku, rfl⟩

/-- Folding stock additions from an arbitrary accumulator equals the
accumulator plus the sum of stocks. -/
theorem foldl_add_stock (vs : List Variant) :
    ∀ init : Int, vs.foldl (fun total v => total + v.stock) init =
      init + (vs.map Variant.stock).sum := by
  induction vs with
  | nil => simp
  | cons v rest ih =>
    intro init
    simp [ih, add_assoc]

/-- C6: for every catalog state and bound `minTotal`, the
high-total-stock aggregation returns exactly (the projections of) the
products whose total stock strictly exceeds `minTotal`, each annotated
with its `totalStock` and with the variant list restricted to variants
with positive stock; and `totalStock` is the sum of `stock` over all
variants, zero-stock ones included. -/
theorem C6_aggregateHighTotalStock_correct :
    (∀ (cat : List Product) (m : Int) (r : HighStockRow),
        r ∈ aggregateHighTotalStock cat m ↔
          ∃ p ∈ cat, m < totalStock p ∧
            r = { name := p.name, category := p.category, totalStock := totalStock p,
                  variants := p.variants.filter fun v => decide (0 < v.stock) }) ∧
    (∀ p : Product, totalStock p = (p.variants.map Variant.stock).sum) := by
  constructor
  · intro cat m r
    simp only [aggregateHighTotalStock, List.mem_map, List.mem_filter,
      decide_eq_true_eq]
    constructor
    · rintro ⟨pt, ⟨⟨p, hp, rfl⟩, hm⟩, hr⟩
      exact ⟨p, hp, hm, hr.symm⟩
    · rintro ⟨p, hp, hm, hr⟩
      exact ⟨(p, totalStock p), ⟨⟨p, hp, rfl⟩, hm⟩, hr.symm⟩
  · intro p
    rw [totalStock, foldl_add_stock, zero_add]

/-- Witness for C5 (amended) at a concrete input: inserting the two
`"DUP-SKU"` products into the empty catalog stores exactly the first
and reports a duplicate-key error. -/
theorem C5_insertMany_amended_witness :
    (insertMany [] [dupA, dupB]).1 = [] ++ [dupA] ∧
    ∃ s, (insertMany [] [dupA, dupB]).2 = some (InsertError.duplicateKey s) :=
  C5_insertMany_amended.1 [] dupA dupB (by decide) (by decide) (by decide) (by decide)

/-- Inserting into a list is a permutation of consing. -/
theorem insertDesc_perm (r : CategoryStats) (l : List CategoryStats) :
    (insertDesc r l).Perm (r :: l) := by
  induction l with
  | nil => exact List.Perm.refl _
  | cons x xs ih =>
    rw [insertDesc]
    by_cases h : x.avgPrice ≤ r.avgPrice
    · rw [if_pos h]
    · rw [if_neg h]
      exact (ih.cons x).trans (List.Perm.swap r x xs)

/-- The sort stage permutes its input. -/
theorem sortByAvgPriceDesc_perm (l : List CategoryStats) :
    (sortByAvgPriceDesc l).Perm l := by
  induction l with
  | nil => exact List.Perm.refl _
  | cons x xs ih =>
    exact (insertDesc_perm x (sortByAvgPriceDesc xs)).trans (ih.cons x)

/-- Descending insertion preserves the descending-average order. -/
theorem pairwise_insertDesc {r : CategoryStats} {l : List CategoryStats}
    (h : l.Pairwise fun a b => b.avgPrice ≤ a.avgPrice) :
    (insertDesc r l).Pairwise fun a b => b.avgPrice ≤ a.avgPrice := by
  induction l with
  | nil => simp [insertDesc]
  | cons x xs ih =>
    rw [List.pairwise_cons] at h
    rcases h with ⟨hx, hxs⟩
    rw [insertDesc]
    by_cases hc : x.avgPrice ≤ r.avgPrice
    · rw [if_pos hc, List.pairwise_cons]
      refine ⟨?_, List.pairwise_cons.2 ⟨hx, hxs⟩⟩
      intro y hy
      rcases List.mem_cons.1 hy with rfl | hy'
      · exact hc
      · exact le_trans (hx y hy') hc
    · rw [if_neg hc, List.pairwise_cons]
      refine ⟨?_, ih hxs⟩
      intro y hy
      rcases List.mem_cons.1 ((insertDesc_perm r xs).mem_iff.1 hy) with rfl | hy'
      · exact le_of_lt (lt_of_not_le hc)
      · exact hx y hy'

/-- The sort stage yields a list in descending-average order. -/
theorem pairwise_sortByAvgPriceDesc (l : List CategoryStats) :
    (sortByAvgPriceDesc l).Pairwise fun a b => b.avgPrice ≤ a.avgPrice := by
  induction l with
  | nil => simp [sortByAvgPriceDesc]
  | cons x xs ih => exact pairwise_insertDesc ih

/-- Membership characterization of the `$group` stage: one row per
category present in the catalog, carrying that category's statistics. -/
theorem mem_groupByCategory {cat : List Product} {r : CategoryStats} :
    r ∈ groupByCategory cat ↔
      (∃ p ∈ cat, p.category = r.category) ∧ r = categoryStatsFor cat r.category := by
  rw [groupByCategory]
  simp only [List.mem_map, List.mem_dedup]
  constructor
  · rintro ⟨c, hc, rfl⟩
    exact ⟨hc, rfl⟩
  · rintro ⟨hex, hr⟩
    exact ⟨r.category, hex, hr.symm⟩

/-- The categories of the `$group` rows are the distinct categories of
the catalog. -/
theorem map_category_groupByCategory (cat : List Product) :
    (groupByCategory cat).map CategoryStats.category = (cat.map Product.category).dedup := by
  rw [groupByCategory, List.map_map]
  have h : CategoryStats.category ∘ categoryStatsFor cat = id := rfl
  rw [h, List.map_id]

/-- C7: the average-price aggregation groups all products (regardless
of `isActive`) by category — one row per distinct category present,
carrying the arithmetic mean of `basePrice` and the product count of
the group — sorted by descending average price; on the sample
4-product catalog it returns exactly 4 rows, each with
`productCount = 1` and `avgPrice` equal to that product's `basePrice`,
in descending price order. -/
theorem C7_aggregateAveragePriceByCategory_correct :
    (∀ cat : List Product,
        ((aggregateAveragePriceByCategory cat).Pairwise fun a b => b.avgPrice ≤ a.avgPrice) ∧
        ((aggregateAveragePriceByCategory cat).map CategoryStats.category).Nodup ∧
        (∀ r : CategoryStats, r ∈ aggregateAveragePriceByCategory cat ↔
            (∃ p ∈ cat, p.category = r.category) ∧ r = categoryStatsFor cat r.category)) ∧
    aggregateAveragePriceByCategory sampleProducts =
      [ { category := "Electronics", avgPrice := 999, productCount := 1 },
        { category := "Home & Kitchen", avgPrice := q29999d100, productCount := 1 },
        { category := "Sports", avgPrice := 150, productCount := 1 },
        { category := "Books", avgPrice := q1299d100, productCount := 1 } ] := by
  constructor
  · intro cat
    refine ⟨pairwise_sortByAvgPriceDesc _, ?_, ?_⟩
    · have hperm := (sortByAvgPriceDesc_perm (groupByCategory cat)).map CategoryStats.category
      have hnd : ((groupByCategory cat).map CategoryStats.category).Nodup := by
        rw [map_category_groupByCategory]
        exact List.nodup_dedup _
      exact hperm.symm.nodup hnd
    · intro r
      rw [aggregateAveragePriceByCategory,
        (sortByAvgPriceDesc_perm (groupByCategory cat)).mem_iff]
      exact mem_groupByCategory
  · have h1 : q1299d100 = 1299 / 100 := by
      rw [q1299d100, Rat.mk'_eq_divInt]
      norm_num [Rat.divInt_eq_div]
    have h2 : q29999d100 = 29999 / 100 := by
      rw [q29999d100, Rat.mk'_eq_divInt]
      norm_num [Rat.divInt_eq_div]
    have hd : (sampleProducts.map Product.category).dedup =
        ["Electronics", "Sports", "Books", "Home & Kitchen"] := by decide
    have hg : groupByCategory sampleProducts =
        [ { category := "Electronics", avgPrice := 999, productCount := 1 },
          { category := "Sports", avgPrice := 150, productCount := 1 },
          { category := "Books", avgPrice := q1299d100, productCount := 1 },
          { category := "Home & Kitchen", avgPrice := q29999d100, productCount := 1 } ] := by
      rw [groupByCategory, hd]
      simp [categoryStatsFor, sampleProducts, iphoneProduct, nikeProduct,
        gatsbyProduct, cookwareProduct, h1, h2]
    rw [aggregateAveragePriceByCategory, hg]
    norm_num [sortByAvgPriceDesc, insertDesc, h1, h2]

/-- C8 counterexample: a product that passes every declared schema
constraint while its `rating.count` is -1 — the schema
(src/DB3.js:96-99) declares no lower bound on `count`, so "rating.count
is a non-negative integer" does not hold of every accepted product. -/
theorem C8_invariants_counterexample :
    validProduct negCountProduct = true ∧ negCountProduct.rating.count < 0 := by
  exact ⟨by decide, by decide⟩

/-- C8 (amended): every product accepted by schema validation satisfies
the declared bounds — `rating.average` in [0,5], `basePrice ≥ 0`, and
for every variant `priceModifier` in [-1000,1000] and `stock ≥ 0`;
`rating.count` carries no constraint, and the bounds are enforced at
validation (insert/save) time only, since the update path runs no
validators. -/
theorem C8_validation_amended :
    ∀ p : Product, validProduct p = true →
      0 ≤ p.rating.average ∧ p.rating.average ≤ 5 ∧ 0 ≤ p.basePrice ∧
        ∀ v ∈ p.variants, -1000 ≤ v.priceModifier ∧ v.priceModifier ≤ 1000 ∧ 0 ≤ v.stock := by
  intro p h
  simp only [validProduct, Bool.and_eq_true, decide_eq_true_eq, List.all_eq_true] at h
  refine ⟨by tauto, by tauto, by tauto, fun v hv2 => ?_⟩
  have hvv : validVariant v = true := h.2 v hv2
  simp only [validVariant, Bool.and_eq_true, decide_eq_true_eq] at hvv
  exact ⟨by tauto, by tauto, by tauto⟩

/-- Witness for C8 (amended) at a concrete input: the iPhone sample
product validates, so its declared bounds hold. -/
theorem C8_validation_amended_witness :
    0 ≤ iphoneProduct.rating.average ∧ iphoneProduct.rating.average ≤ 5 ∧
      0 ≤ iphoneProduct.basePrice ∧
      ∀ v ∈ iphoneProduct.variants,
        -1000 ≤ v.priceModifier ∧ v.priceModifier ≤ 1000 ∧ 0 ≤ v.stock :=
  C8_validation_amended iphoneProduct (by decide)

/-- C9 counterexample: the variant-color query returns an *inactive*
product whose black variant has stock 0 and whose only positive-stock
variant is red — the two array conditions are satisfied by different
variants and no `isActive` condition appears in the query
(src/DB3.js:349-352) — so neither the activity restriction nor the
"stock among matching variants" reading holds. -/
theorem C9_colorPattern_counterexample :
    findByVariantColorPattern [inactiveMixedProduct] "black" = [inactiveMixedProduct] ∧
    inactiveMixedProduct.isActive = false ∧
    (∀ v ∈ inactiveMixedProduct.variants,
        ¬(colorMatches "black" v = true ∧ 0 < v.stock)) := by
  exact ⟨by decide, by decide, by decide⟩

/-- C9 (amended): the variant-color pattern query returns exactly the
products — active or not — having at least one variant whose color
contains the pattern case-insensitively and at least one variant
(possibly a different one) with positive stock. -/
theorem C9_colorPattern_amended :
    ∀ (cat : List Product) (pat : String) (p : Product),
      p ∈ findByVariantColorPattern cat pat ↔
        p ∈ cat ∧ (∃ v ∈ p.variants, lowerChars pat <:+: lowerChars v.color) ∧
          ∃ v ∈ p.variants, 0 < v.stock := by
  intro cat pat p
  simp only [findByVariantColorPattern, List.mem_filter, Bool.and_eq_true,
    List.any_eq_true, colorMatches, decide_eq_true_eq]

end DB3
